import Mathlib

set_option maxRecDepth 40000

/-!
Verification of the presence-simulator sketch (relay toggled at random
intervals controlled by a potentiometer, with heartbeat and telemetry
tasks driven by a non-blocking millis-based loop).

The embedding mirrors `relay_presenca_aleatoria_Version4.ino`:
machine arithmetic on 32-bit `unsigned long` / `long` is modelled with
`Nat` / `Int` and explicit reduction modulo `2 ^ 32`; the C cast to
`uint8_t` is reduction modulo 256; the C `/` on `long` is `Int.tdiv`
(truncation toward zero); Arduino `random(a, b)` is a black-box
function assumed to return a value in `[a, b - 1]`.
-/

/-! ### Clock and the wraparound-safe due check -/

/-- Modulus of the 32-bit millisecond counter (`unsigned long` on AVR). -/
def U32 : Nat := 4294967296

/-- Half the wrap period, `2 ^ 31` milliseconds. -/
def HALF32 : Nat := 2147483648

/-- Wrapping unsigned 32-bit subtraction `a - b`. -/
def wrapSub (a b : Nat) : Nat := (a % U32 + U32 - b % U32) % U32

/-- Reinterpret an unsigned 32-bit value as a signed `long`
(two's complement). -/
def toSigned32 (n : Nat) : Int :=
  if n % U32 < HALF32 then ((n % U32 : Nat) : Int) else ((n % U32 : Nat) : Int) - (U32 : Int)

/-- The due check used by `loop` for all three tasks:
`(long)(agora - deadline) >= 0`. -/
def due (agora deadline : Nat) : Bool :=
  decide (0 ≤ toSigned32 (wrapSub agora deadline))

/-! ### Sensor reader and range mapper -/

/-- ADC full-scale constant of the sketch (`const int POT_ADC_MAX = 1023`). -/
def POT_ADC_MAX : Nat := 1023

/-- Arduino macro `constrain(amt, low, high)`:
`(amt)<(low) ? (low) : ((amt)>(high) ? (high) : (amt))`. -/
def constrain (x lo hi : Int) : Int :=
  if x < lo then lo else if hi < x then hi else x

/-- `lerPotRaw`: one raw analog sample clamped into `0..POT_ADC_MAX`.
The raw sample is the argument (one hardware read per call). -/
def lerPotRaw (raw : Int) : Int := constrain raw 0 (POT_ADC_MAX : Int)

/-- Arduino `map(x, in_min, in_max, out_min, out_max)` on `long`:
`(x - in_min) * (out_max - out_min) / (in_max - in_min) + out_min`,
with C truncating division. -/
def arduinoMap (x inMin inMax outMin outMax : Int) : Int :=
  Int.tdiv ((x - inMin) * (outMax - outMin)) (inMax - inMin) + outMin

/-- C cast of a `long` value to `uint8_t`: reduction modulo 256. -/
def toUInt8 (v : Int) : Nat := (v % 256).toNat

/-- `minCalc` of `faixaPorLeitura`:
`(uint8_t) map(leitura, 0, POT_ADC_MAX, 1, 10)`. -/
def faixaMinCalc (leitura : Int) : Nat :=
  toUInt8 (arduinoMap leitura 0 (POT_ADC_MAX : Int) 1 10)

/-- `maxCalc` of `faixaPorLeitura`:
`(uint8_t) map(leitura, 0, POT_ADC_MAX, 8, 25)`. -/
def faixaMaxCalc (leitura : Int) : Nat :=
  toUInt8 (arduinoMap leitura 0 (POT_ADC_MAX : Int) 8 25)

/-- `faixaPorLeitura`: maps an ADC reading to the minute range
`(minMin, maxMax)`, with the defensive correction
`if (maxCalc < minCalc) maxCalc = minCalc`. -/
def faixaPorLeitura (leitura : Int) : Nat × Nat :=
  let minCalc := faixaMinCalc leitura
  let maxCalc := faixaMaxCalc leitura
  (minCalc, if maxCalc < minCalc then minCalc else maxCalc)

/-! ### Duration picker -/

/-- The draw made by `agendaProximoIntervalo`:
`random((long)minMin, (long)maxMax + 1)`.  The generator `rng` is the
external black box `random(a, b)`. -/
def duracaoSorteada (rng : Nat → Nat → Nat) (minMin maxMax : Nat) : Nat :=
  rng minMin (maxMax + 1)

/-- Contract of the external Arduino `random(a, b)`: when `a < b` the
result lies in `[a, b - 1]`. -/
def RandomSpec (rng : Nat → Nat → Nat) : Prop :=
  ∀ a b, a < b → a ≤ rng a b ∧ rng a b < b

/-! ### Electrical configuration and digital writes -/

/-- Arduino digital level `HIGH`. -/
def HIGH : Bool := true

/-- Arduino digital level `LOW`. -/
def LOW : Bool := false

/-- `const bool RELAY_ATIVO_EM_LOW = true`. -/
def RELAY_ATIVO_EM_LOW : Bool := true

/-- `const bool LED_RELE_ATIVO_EM_HIGH = true`. -/
def LED_RELE_ATIVO_EM_HIGH : Bool := true

/-- `const bool HB_LED_ATIVO_EM_HIGH = true`. -/
def HB_LED_ATIVO_EM_HIGH : Bool := true

/-- `hbPeriodoMs = 500`. -/
def hbPeriodoMs : Nat := 500

/-- `potPrintPeriodoMs = 1000`. -/
def potPrintPeriodoMs : Nat := 1000

/-- `escreveRelay(ligar)`: the pair of levels written to the relay pin
and the state LED pin, according to the polarity flags. -/
def escreveRelayLevels (ligar : Bool) : Bool × Bool :=
  if ligar then
    (if RELAY_ATIVO_EM_LOW then LOW else HIGH,
     if LED_RELE_ATIVO_EM_HIGH then HIGH else LOW)
  else
    (if RELAY_ATIVO_EM_LOW then HIGH else LOW,
     if LED_RELE_ATIVO_EM_HIGH then LOW else HIGH)

/-- `escreveHeartbeat(ligar)`: the level written to the heartbeat pin. -/
def escreveHeartbeatLevel (ligar : Bool) : Bool :=
  if ligar then (if HB_LED_ATIVO_EM_HIGH then HIGH else LOW)
  else (if HB_LED_ATIVO_EM_HIGH then LOW else HIGH)

/-! ### Program state and the cooperative loop -/

/-- The mutable globals of the sketch, plus the last level written to
each output pin.  All clock values are stored reduced modulo `2 ^ 32`. -/
structure SysState where
  relayLigado : Bool
  proximaTrocaMs : Nat
  hbOn : Bool
  hbProximaTrocaMs : Nat
  potProximaImpressaoMs : Nat
  relayPinLevel : Bool
  ledRelePinLevel : Bool
  hbPinLevel : Bool
deriving Repr, DecidableEq

/-- The fields of the log line printed by `agendaProximoIntervalo`. -/
structure AgendaLog where
  faixaMin : Nat
  faixaMax : Nat
  proximoEstadoLigado : Bool
  minutos : Nat
deriving Repr, DecidableEq

/-- The fields of the telemetry line printed by the telemetry task. -/
structure TeleLog where
  leitura : Int
  perc : Nat
  faixaMin : Nat
  faixaMax : Nat
deriving Repr, DecidableEq

/-- External inputs consumed during one `loop` iteration: the `millis`
sample taken at the top of `loop`, the `millis` sample taken inside
`agendaProximoIntervalo` (if the relay branch fires), the raw analog
samples of the two possible `analogRead` calls, and the random
generator. -/
structure LoopInputs where
  agora : Nat
  agoraAgenda : Nat
  potRelay : Int
  potTele : Int
  rng : Nat → Nat → Nat

/-- `agendaProximoIntervalo(proximoEstadoLigado)`: resample the
potentiometer, map it to a minute range, draw `minutos` from the
generator and set `proximaTrocaMs = millis() + minutos * 60000`
(wrapping).  Returns the new state and the printed log line. -/
def agendaProximoIntervalo (rng : Nat → Nat → Nat) (potRaw : Int) (agoraAg : Nat)
    (proximoEstadoLigado : Bool) (s : SysState) : SysState × AgendaLog :=
  let leitura := lerPotRaw potRaw
  let faixa := faixaPorLeitura leitura
  let minutos := duracaoSorteada rng faixa.1 faixa.2
  ({ s with proximaTrocaMs := (agoraAg + minutos * 60000) % U32 },
   ⟨faixa.1, faixa.2, proximoEstadoLigado, minutos⟩)

/-- The heartbeat block of `loop`. -/
def hbStep (agora : Nat) (s : SysState) : SysState :=
  if due agora s.hbProximaTrocaMs then
    let hb := !s.hbOn
    { s with hbOn := hb, hbPinLevel := escreveHeartbeatLevel hb,
             hbProximaTrocaMs := (agora + hbPeriodoMs) % U32 }
  else s

/-- The relay block of `loop`: on a fired due check, flip the state,
drive the relay and state-LED outputs, and reschedule via
`agendaProximoIntervalo(!relayLigado)`. -/
def relayStep (inp : LoopInputs) (s : SysState) : SysState × Option AgendaLog :=
  if due inp.agora s.proximaTrocaMs then
    let lig := !s.relayLigado
    let lv := escreveRelayLevels lig
    let s1 := { s with relayLigado := lig, relayPinLevel := lv.1, ledRelePinLevel := lv.2 }
    let r := agendaProximoIntervalo inp.rng inp.potRelay inp.agoraAgenda (!lig) s1
    (r.1, some r.2)
  else (s, none)

/-- The telemetry block of `loop`: on a fired due check, resample the
potentiometer, recompute the range, compute the percentage
`leitura * 100 / POT_ADC_MAX`, print one line and reschedule. -/
def teleStep (inp : LoopInputs) (s : SysState) : SysState × Option TeleLog :=
  if due inp.agora s.potProximaImpressaoMs then
    let leitura := lerPotRaw inp.potTele
    let faixa := faixaPorLeitura leitura
    let perc := leitura.toNat * 100 / POT_ADC_MAX
    ({ s with potProximaImpressaoMs := (inp.agora + potPrintPeriodoMs) % U32 },
     some ⟨leitura, perc, faixa.1, faixa.2⟩)
  else (s, none)

/-- One iteration of `loop`: heartbeat check, relay check, telemetry
check, all against the same `agora` sample. -/
def loopStep (inp : LoopInputs) (s : SysState) : SysState × Option AgendaLog × Option TeleLog :=
  let s1 := hbStep inp.agora s
  let r2 := relayStep inp s1
  let r3 := teleStep inp r2.1
  (r3.1, r2.2, r3.2)

/-- `setup()`: initial states written (relay OFF, heartbeat off),
heartbeat and telemetry deadlines set from one `millis` sample, then
`agendaProximoIntervalo(true)` schedules the first relay deadline with
the "next state will be ON" intent.  `agora0` is the `millis` sample
taken in `setup`; `agoraAg` the one taken inside
`agendaProximoIntervalo`. -/
def setup (agora0 agoraAg : Nat) (potInit : Int) (rng : Nat → Nat → Nat) :
    SysState × AgendaLog :=
  let s : SysState :=
    { relayLigado := false
      proximaTrocaMs := 0
      hbOn := false
      hbProximaTrocaMs := (agora0 + hbPeriodoMs) % U32
      potProximaImpressaoMs := (agora0 + potPrintPeriodoMs) % U32
      relayPinLevel := (escreveRelayLevels false).1
      ledRelePinLevel := (escreveRelayLevels false).2
      hbPinLevel := escreveHeartbeatLevel false }
  agendaProximoIntervalo rng potInit agoraAg true s

/-! ### Closed form of the range mapper on clamped readings -/

/-- Helper: on the clamped domain, both interpolations of
`faixaPorLeitura` reduce to floor-division closed forms, the `uint8_t`
casts are lossless, and the defensive correction does not change the
result. -/
theorem faixa_formula : ∀ r : Nat, r ≤ POT_ADC_MAX →
    faixaMinCalc (r : Int) = 1 + r * 9 / 1023 ∧
    faixaMaxCalc (r : Int) = 8 + r * 17 / 1023 ∧
    faixaPorLeitura (r : Int) = (1 + r * 9 / 1023, 8 + r * 17 / 1023) := by
  decide

/-- C1: the due check `(long)(agora - deadline) >= 0` — wrapping
32-bit subtraction followed by a signed reinterpretation — reports
"due" exactly when the true (unwrapped) time `N` has reached the true
deadline `D`, provided the true distance between them is below half
the wrap period; this covers the counter wrapping exactly once between
scheduling and firing. -/
theorem due_wraparound_correct (D N : Nat)
    (h1 : N - D < HALF32) (h2 : D - N < HALF32) :
    due N D = true ↔ D ≤ N := by
  simp only [due, wrapSub, toSigned32, U32, HALF32, decide_eq_true_eq] at h1 h2 ⊢
  split <;> omega

/-- Witness for C1: a pair straddling the 32-bit wrap, 510 ms apart. -/
theorem due_wraparound_correct_witness :
    (4294967800 - 4294967290 < HALF32 ∧ 4294967290 - 4294967800 < HALF32) ∧
    (due 4294967800 4294967290 = true ↔ 4294967290 ≤ 4294967800) :=
  ⟨⟨by decide, by decide⟩, due_wraparound_correct 4294967290 4294967800 (by decide) (by decide)⟩

/-- C2: on every clamped reading, `faixaPorLeitura` returns
`(1 + r * 9 / POT_ADC_MAX, 8 + r * 17 / POT_ADC_MAX)` with floor
division — the integer linear interpolation of `[0, ADC_MAX]` onto
`[1, 10]` and `[8, 25]` — and in particular `(1, 8)` at 0, `(10, 25)`
at `POT_ADC_MAX`, and `(5, 16)` at 511. -/
theorem faixaPorLeitura_interpolation :
    (∀ r : Nat, r ≤ POT_ADC_MAX →
      faixaPorLeitura (r : Int) = (1 + r * 9 / POT_ADC_MAX, 8 + r * 17 / POT_ADC_MAX)) ∧
    faixaPorLeitura 0 = (1, 8) ∧
    faixaPorLeitura ((POT_ADC_MAX : Nat) : Int) = (10, 25) ∧
    faixaPorLeitura 511 = (5, 16) := by
  decide

/-- Witness for C2 at reading 255. -/
theorem faixaPorLeitura_interpolation_witness :
    (255 : Nat) ≤ POT_ADC_MAX ∧
    faixaPorLeitura ((255 : Nat) : Int) = (1 + 255 * 9 / POT_ADC_MAX, 8 + 255 * 17 / POT_ADC_MAX) :=
  ⟨by decide, faixaPorLeitura_interpolation.1 255 (by decide)⟩

/-- C3: on the clamped domain both bounds returned by
`faixaPorLeitura` are monotonically non-decreasing in the reading, and
the returned pair always satisfies `high ≥ low`. -/
theorem faixaPorLeitura_monotone_ordered :
    (∀ r1 r2 : Nat, r1 ≤ r2 → r2 ≤ POT_ADC_MAX →
      (faixaPorLeitura (r1 : Int)).1 ≤ (faixaPorLeitura (r2 : Int)).1 ∧
      (faixaPorLeitura (r1 : Int)).2 ≤ (faixaPorLeitura (r2 : Int)).2) ∧
    (∀ r : Nat, r ≤ POT_ADC_MAX →
      (faixaPorLeitura (r : Int)).1 ≤ (faixaPorLeitura (r : Int)).2) := by
  constructor
  · intro r1 r2 h12 h2
    obtain ⟨-, -, e1⟩ := faixa_formula r1 (le_trans h12 h2)
    obtain ⟨-, -, e2⟩ := faixa_formula r2 h2
    rw [e1, e2]
    dsimp only
    have h9 : r1 * 9 / 1023 ≤ r2 * 9 / 1023 :=
      Nat.div_le_div_right (Nat.mul_le_mul_right 9 h12)
    have h17 : r1 * 17 / 1023 ≤ r2 * 17 / 1023 :=
      Nat.div_le_div_right (Nat.mul_le_mul_right 17 h12)
    omega
  · intro r hr
    obtain ⟨-, -, e⟩ := faixa_formula r hr
    rw [e]
    dsimp only
    have hc : r * 9 / 1023 ≤ r * 17 / 1023 :=
      Nat.div_le_div_right (Nat.mul_le_mul_left r (by norm_num))
    omega

/-- Witness for C3 at readings 100 ≤ 900 and at reading 500. -/
theorem faixaPorLeitura_monotone_ordered_witness :
    ((100 : Nat) ≤ 900 ∧ (900 : Nat) ≤ POT_ADC_MAX ∧
      (faixaPorLeitura ((100 : Nat) : Int)).1 ≤ (faixaPorLeitura ((900 : Nat) : Int)).1 ∧
      (faixaPorLeitura ((100 : Nat) : Int)).2 ≤ (faixaPorLeitura ((900 : Nat) : Int)).2) ∧
    ((500 : Nat) ≤ POT_ADC_MAX ∧
      (faixaPorLeitura ((500 : Nat) : Int)).1 ≤ (faixaPorLeitura ((500 : Nat) : Int)).2) :=
  ⟨⟨by decide, by decide, faixaPorLeitura_monotone_ordered.1 100 900 (by decide) (by decide)⟩,
   ⟨by decide, faixaPorLeitura_monotone_ordered.2 500 (by decide)⟩⟩

/-- C4: assuming the external `random(a, b)` black box returns a value
in `[a, b - 1]`, the duration drawn by the scheduler lies in
`[low, high]` inclusive whenever `low ≤ high`, and is exactly `low`
when `low = high`. -/
theorem duracaoSorteada_in_range (rng : Nat → Nat → Nat) (h : RandomSpec rng)
    (low high : Nat) (hlh : low ≤ high) :
    low ≤ duracaoSorteada rng low high ∧ duracaoSorteada rng low high ≤ high ∧
    (low = high → duracaoSorteada rng low high = low) := by
  obtain ⟨ha, hb⟩ := h low (high + 1) (by omega)
  unfold duracaoSorteada
  omega

/-- Witness for C4 with the generator that returns the lower end. -/
theorem duracaoSorteada_in_range_witness :
    RandomSpec (fun a _ => a) ∧ (3 : Nat) ≤ 7 ∧
    (3 ≤ duracaoSorteada (fun a _ => a) 3 7 ∧ duracaoSorteada (fun a _ => a) 3 7 ≤ 7 ∧
      ((3 : Nat) = 7 → duracaoSorteada (fun a _ => a) 3 7 = 3)) :=
  ⟨fun a b hab => ⟨Nat.le_refl a, hab⟩, by decide,
   duracaoSorteada_in_range (fun a _ => a) (fun a b hab => ⟨Nat.le_refl a, hab⟩) 3 7 (by decide)⟩

/-- C9: `lerPotRaw` clamps every raw sample into `[0, POT_ADC_MAX]`:
negative samples become 0, samples above `POT_ADC_MAX` become
`POT_ADC_MAX`, in-range samples pass through unchanged. -/
theorem lerPotRaw_clamps (raw : Int) :
    0 ≤ lerPotRaw raw ∧ lerPotRaw raw ≤ (POT_ADC_MAX : Int) ∧
    (raw < 0 → lerPotRaw raw = 0) ∧
    ((POT_ADC_MAX : Int) < raw → lerPotRaw raw = (POT_ADC_MAX : Int)) ∧
    (0 ≤ raw → raw ≤ (POT_ADC_MAX : Int) → lerPotRaw raw = raw) := by
  simp only [lerPotRaw, constrain, POT_ADC_MAX]
  split
  · omega
  · split <;> omega

/-- Witness for C9 at a negative, an oversized, and an in-range sample. -/
theorem lerPotRaw_clamps_witness :
    lerPotRaw (-5) = 0 ∧ lerPotRaw 2000 = (POT_ADC_MAX : Int) ∧ lerPotRaw 700 = 700 :=
  ⟨(lerPotRaw_clamps (-5)).2.2.1 (by decide),
   (lerPotRaw_clamps 2000).2.2.2.1 (by decide),
   (lerPotRaw_clamps 700).2.2.2.2 (by decide) (by decide)⟩

/-- C10: on every clamped reading the pre-correction interpolated
bounds differ by at least 7, so the defensive branch
`if (maxCalc < minCalc) maxCalc = minCalc` never fires and the result
is exactly the pre-correction pair. -/
theorem faixa_correction_unreachable :
    ∀ r : Nat, r ≤ POT_ADC_MAX →
      faixaMinCalc (r : Int) + 7 ≤ faixaMaxCalc (r : Int) ∧
      ¬ faixaMaxCalc (r : Int) < faixaMinCalc (r : Int) ∧
      faixaPorLeitura (r : Int) = (faixaMinCalc (r : Int), faixaMaxCalc (r : Int)) := by
  decide

/-- Witness for C10 at reading 0. -/
theorem faixa_correction_unreachable_witness :
    (0 : Nat) ≤ POT_ADC_MAX ∧
    (faixaMinCalc ((0 : Nat) : Int) + 7 ≤ faixaMaxCalc ((0 : Nat) : Int) ∧
      ¬ faixaMaxCalc ((0 : Nat) : Int) < faixaMinCalc ((0 : Nat) : Int) ∧
      faixaPorLeitura ((0 : Nat) : Int) =
        (faixaMinCalc ((0 : Nat) : Int), faixaMaxCalc ((0 : Nat) : Int))) :=
  ⟨by decide, faixa_correction_unreachable 0 (by decide)⟩

/-! ### Concrete inputs used by witnesses -/

/-- A concrete loop input: clock sample 0, generator returning the
lower end. -/
def inpW : LoopInputs := ⟨0, 0, 700, 300, fun a _ => a⟩

/-- A concrete state whose relay deadline is due at time 0 but whose
heartbeat and telemetry deadlines are not. -/
def sW : SysState := ⟨false, 0, false, 500, 1000, true, false, false⟩

/-- A concrete state whose three deadlines are all due at time 0. -/
def sW2 : SysState := ⟨true, 0, true, 0, 0, false, true, true⟩

/-- C5: the actuator state flips exactly on fired relay due checks:
a fired check negates `relayLigado`, a non-fired check and the other
two tasks leave it unchanged, `agendaProximoIntervalo` never touches
it, one whole `loop` iteration negates it exactly when the relay
deadline is due, and `setup` leaves the relay OFF while logging the
"next state will be ON" intent. -/
theorem relay_state_alternates :
    (∀ inp s, due inp.agora s.proximaTrocaMs = true →
      (relayStep inp s).1.relayLigado = !s.relayLigado) ∧
    (∀ inp s, due inp.agora s.proximaTrocaMs = false →
      (relayStep inp s).1.relayLigado = s.relayLigado) ∧
    (∀ t s, (hbStep t s).relayLigado = s.relayLigado) ∧
    (∀ inp s, (teleStep inp s).1.relayLigado = s.relayLigado) ∧
    (∀ rng potRaw agoraAg e s,
      (agendaProximoIntervalo rng potRaw agoraAg e s).1.relayLigado = s.relayLigado) ∧
    (∀ inp s, (loopStep inp s).1.relayLigado =
      if due inp.agora s.proximaTrocaMs then !s.relayLigado else s.relayLigado) ∧
    (∀ agora0 agoraAg potInit rng,
      (setup agora0 agoraAg potInit rng).1.relayLigado = false ∧
      (setup agora0 agoraAg potInit rng).2.proximoEstadoLigado = true) := by
  refine ⟨?_, ?_, ?_, ?_, ?_, ?_, ?_⟩
  · intro inp s h
    simp [relayStep, agendaProximoIntervalo, h]
  · intro inp s h
    simp [relayStep, h]
  · intro t s
    by_cases h : due t s.hbProximaTrocaMs <;> simp [hbStep, h]
  · intro inp s
    by_cases h : due inp.agora s.potProximaImpressaoMs <;> simp [teleStep, h]
  · intro rng potRaw agoraAg e s
    simp [agendaProximoIntervalo]
  · intro inp s
    by_cases h1 : due inp.agora s.hbProximaTrocaMs <;>
      by_cases h2 : due inp.agora s.proximaTrocaMs <;>
        by_cases h3 : due inp.agora s.potProximaImpressaoMs <;>
          simp [loopStep, hbStep, relayStep, teleStep, agendaProximoIntervalo, h1, h2, h3]
  · intro agora0 agoraAg potInit rng
    simp [setup, agendaProximoIntervalo]

/-- Witness for C5 at concrete inputs and states. -/
theorem relay_state_alternates_witness :
    (due inpW.agora sW.proximaTrocaMs = true ∧
      (relayStep inpW sW).1.relayLigado = !sW.relayLigado) ∧
    (due inpW.agora sW2.hbProximaTrocaMs = true ∧
      (hbStep inpW.agora sW2).relayLigado = sW2.relayLigado) ∧
    (setup 0 0 700 (fun a _ => a)).1.relayLigado = false ∧
    (setup 0 0 700 (fun a _ => a)).2.proximoEstadoLigado = true :=
  ⟨⟨by decide, relay_state_alternates.1 inpW sW (by decide)⟩,
   ⟨by decide, relay_state_alternates.2.2.1 inpW.agora sW2⟩,
   (relay_state_alternates.2.2.2.2.2.2 0 0 700 (fun a _ => a)).1,
   (relay_state_alternates.2.2.2.2.2.2 0 0 700 (fun a _ => a)).2⟩

/-- C6: on a fired relay due check the step flips the state, writes
the relay and state-LED levels according to the polarity flags,
resamples the sensor, recomputes the range, draws `minutos` from the
picker over that fresh range, and sets the new deadline to
`now + minutos * 60000` (wrapping), where `now` is the clock sample
taken inside the scheduling call; the log line reports the fresh
range, the drawn duration and the state the next flip will set. -/
theorem relay_fired_transition (inp : LoopInputs) (s : SysState)
    (h : due inp.agora s.proximaTrocaMs = true) :
    (relayStep inp s).1 =
      { s with
        relayLigado := !s.relayLigado,
        relayPinLevel := (escreveRelayLevels (!s.relayLigado)).1,
        ledRelePinLevel := (escreveRelayLevels (!s.relayLigado)).2,
        proximaTrocaMs :=
          (inp.agoraAgenda +
            duracaoSorteada inp.rng (faixaPorLeitura (lerPotRaw inp.potRelay)).1
              (faixaPorLeitura (lerPotRaw inp.potRelay)).2 * 60000) % U32 } ∧
    (relayStep inp s).2 =
      some ⟨(faixaPorLeitura (lerPotRaw inp.potRelay)).1,
            (faixaPorLeitura (lerPotRaw inp.potRelay)).2,
            s.relayLigado,
            duracaoSorteada inp.rng (faixaPorLeitura (lerPotRaw inp.potRelay)).1
              (faixaPorLeitura (lerPotRaw inp.potRelay)).2⟩ := by
  simp [relayStep, agendaProximoIntervalo, h]

/-- Witness for C6 at a concrete fired input. -/
theorem relay_fired_transition_witness :
    due inpW.agora sW.proximaTrocaMs = true ∧
    ((relayStep inpW sW).1 =
      { sW with
        relayLigado := !sW.relayLigado,
        relayPinLevel := (escreveRelayLevels (!sW.relayLigado)).1,
        ledRelePinLevel := (escreveRelayLevels (!sW.relayLigado)).2,
        proximaTrocaMs :=
          (inpW.agoraAgenda +
            duracaoSorteada inpW.rng (faixaPorLeitura (lerPotRaw inpW.potRelay)).1
              (faixaPorLeitura (lerPotRaw inpW.potRelay)).2 * 60000) % U32 } ∧
     (relayStep inpW sW).2 =
      some ⟨(faixaPorLeitura (lerPotRaw inpW.potRelay)).1,
            (faixaPorLeitura (lerPotRaw inpW.potRelay)).2,
            sW.relayLigado,
            duracaoSorteada inpW.rng (faixaPorLeitura (lerPotRaw inpW.potRelay)).1
              (faixaPorLeitura (lerPotRaw inpW.potRelay)).2⟩) :=
  ⟨by decide, relay_fired_transition inpW sW (by decide)⟩

/-- C7: the heartbeat toggles its boolean exactly once per fired
check and reschedules exactly `hbPeriodoMs` after the current sample;
the telemetry task likewise fires once and reschedules exactly
`potPrintPeriodoMs` later; neither is affected by the relay task
(which never touches their state); a deadline rescheduled to
`T + period` is not due at any sample less than one period after `T`
(so a task never fires twice inside one elapsed-period window, however
irregular the loop iterations), and is due again as soon as a full
period has elapsed (within half the wrap period). -/
theorem periodic_tasks_fixed_period :
    (∀ t s, due t s.hbProximaTrocaMs = true →
      (hbStep t s).hbOn = !s.hbOn ∧
      (hbStep t s).hbPinLevel = escreveHeartbeatLevel (!s.hbOn) ∧
      (hbStep t s).hbProximaTrocaMs = (t + hbPeriodoMs) % U32) ∧
    (∀ t s, due t s.hbProximaTrocaMs = false → hbStep t s = s) ∧
    (∀ inp s, (relayStep inp s).1.hbOn = s.hbOn ∧
      (relayStep inp s).1.hbProximaTrocaMs = s.hbProximaTrocaMs ∧
      (teleStep inp s).1.hbOn = s.hbOn ∧
      (teleStep inp s).1.hbProximaTrocaMs = s.hbProximaTrocaMs) ∧
    (∀ T T2 : Nat, T ≤ T2 → T2 < T + hbPeriodoMs →
      due T2 ((T + hbPeriodoMs) % U32) = false) ∧
    (∀ T T2 : Nat, T + hbPeriodoMs ≤ T2 → T2 - (T + hbPeriodoMs) < HALF32 →
      due T2 ((T + hbPeriodoMs) % U32) = true) ∧
    (∀ inp s, due inp.agora s.potProximaImpressaoMs = true →
      (teleStep inp s).1.potProximaImpressaoMs = (inp.agora + potPrintPeriodoMs) % U32 ∧
      (teleStep inp s).2.isSome = true) ∧
    (∀ inp s, due inp.agora s.potProximaImpressaoMs = false → teleStep inp s = (s, none)) ∧
    (∀ T T2 : Nat, T ≤ T2 → T2 < T + potPrintPeriodoMs →
      due T2 ((T + potPrintPeriodoMs) % U32) = false) ∧
    (∀ T T2 : Nat, T + potPrintPeriodoMs ≤ T2 → T2 - (T + potPrintPeriodoMs) < HALF32 →
      due T2 ((T + potPrintPeriodoMs) % U32) = true) := by
  refine ⟨?_, ?_, ?_, ?_, ?_, ?_, ?_, ?_, ?_⟩
  · intro t s h
    simp [hbStep, h]
  · intro t s h
    simp [hbStep, h]
  · intro inp s
    by_cases h1 : due inp.agora s.proximaTrocaMs <;>
      by_cases h2 : due inp.agora s.potProximaImpressaoMs <;>
        simp [relayStep, teleStep, agendaProximoIntervalo, h1, h2]
  · intro T T2 hle hlt
    simp only [due, wrapSub, toSigned32, U32, HALF32, hbPeriodoMs,
      decide_eq_false_iff_not] at hle hlt ⊢
    split <;> omega
  · intro T T2 hle hlt
    simp only [due, wrapSub, toSigned32, U32, HALF32, hbPeriodoMs,
      decide_eq_true_eq] at hle hlt ⊢
    split <;> omega
  · intro inp s h
    simp [teleStep, h]
  · intro inp s h
    simp [teleStep, h]
  · intro T T2 hle hlt
    simp only [due, wrapSub, toSigned32, U32, HALF32, potPrintPeriodoMs,
      decide_eq_false_iff_not] at hle hlt ⊢
    split <;> omega
  · intro T T2 hle hlt
    simp only [due, wrapSub, toSigned32, U32, HALF32, potPrintPeriodoMs,
      decide_eq_true_eq] at hle hlt ⊢
    split <;> omega

/-- Witness for C7 at concrete samples, including samples straddling
the 32-bit wrap. -/
theorem periodic_tasks_fixed_period_witness :
    (due 0 sW2.hbProximaTrocaMs = true ∧
      ((hbStep 0 sW2).hbOn = !sW2.hbOn ∧
       (hbStep 0 sW2).hbPinLevel = escreveHeartbeatLevel (!sW2.hbOn) ∧
       (hbStep 0 sW2).hbProximaTrocaMs = (0 + hbPeriodoMs) % U32)) ∧
    (due 0 sW.hbProximaTrocaMs = false ∧ hbStep 0 sW = sW) ∧
    ((4294967290 : Nat) ≤ 4294967300 ∧ (4294967300 : Nat) < 4294967290 + hbPeriodoMs ∧
      due 4294967300 ((4294967290 + hbPeriodoMs) % U32) = false) ∧
    ((4294967290 : Nat) + hbPeriodoMs ≤ 4294967990 ∧
      (4294967990 : Nat) - (4294967290 + hbPeriodoMs) < HALF32 ∧
      due 4294967990 ((4294967290 + hbPeriodoMs) % U32) = true) ∧
    (due inpW.agora sW2.potProximaImpressaoMs = true ∧
      ((teleStep inpW sW2).1.potProximaImpressaoMs = (inpW.agora + potPrintPeriodoMs) % U32 ∧
       (teleStep inpW sW2).2.isSome = true)) ∧
    (due inpW.agora sW.potProximaImpressaoMs = false ∧ teleStep inpW sW = (sW, none)) ∧
    ((0 : Nat) ≤ 999 ∧ (999 : Nat) < 0 + potPrintPeriodoMs ∧
      due 999 ((0 + potPrintPeriodoMs) % U32) = false) ∧
    ((0 : Nat) + potPrintPeriodoMs ≤ 1000 ∧ (1000 : Nat) - (0 + potPrintPeriodoMs) < HALF32 ∧
      due 1000 ((0 + potPrintPeriodoMs) % U32) = true) :=
  ⟨⟨by decide, periodic_tasks_fixed_period.1 0 sW2 (by decide)⟩,
   ⟨by decide, periodic_tasks_fixed_period.2.1 0 sW (by decide)⟩,
   ⟨by decide, by decide,
     periodic_tasks_fixed_period.2.2.2.1 4294967290 4294967300 (by decide) (by decide)⟩,
   ⟨by decide, by decide,
     periodic_tasks_fixed_period.2.2.2.2.1 4294967290 4294967990 (by decide) (by decide)⟩,
   ⟨by decide, periodic_tasks_fixed_period.2.2.2.2.2.1 inpW sW2 (by decide)⟩,
   ⟨by decide, periodic_tasks_fixed_period.2.2.2.2.2.2.1 inpW sW (by decide)⟩,
   ⟨by decide, by decide,
     periodic_tasks_fixed_period.2.2.2.2.2.2.2.1 0 999 (by decide) (by decide)⟩,
   ⟨by decide, by decide,
     periodic_tasks_fixed_period.2.2.2.2.2.2.2.2 0 1000 (by decide) (by decide)⟩⟩

/-- C8: a fired telemetry check only advances its own deadline; its
full effect on the state is the record update of
`potProximaImpressaoMs`, and the emitted line carries the clamped
reading, the percentage `leitura * 100 / POT_ADC_MAX`, and the mapped
range; moreover each of the three deadlines is mutated only by its own
task: the heartbeat step never touches the relay or telemetry
deadlines, the relay step never touches the heartbeat or telemetry
deadlines, and the telemetry step never touches the relay state, the
heartbeat boolean, or the other two deadlines. -/
theorem teleStep_frame :
    (∀ inp s, due inp.agora s.potProximaImpressaoMs = true →
      (teleStep inp s).1 =
        { s with potProximaImpressaoMs := (inp.agora + potPrintPeriodoMs) % U32 } ∧
      (teleStep inp s).2 = some ⟨lerPotRaw inp.potTele,
        (lerPotRaw inp.potTele).toNat * 100 / POT_ADC_MAX,
        (faixaPorLeitura (lerPotRaw inp.potTele)).1,
        (faixaPorLeitura (lerPotRaw inp.potTele)).2⟩) ∧
    (∀ inp s,
      (teleStep inp s).1.relayLigado = s.relayLigado ∧
      (teleStep inp s).1.hbOn = s.hbOn ∧
      (teleStep inp s).1.proximaTrocaMs = s.proximaTrocaMs ∧
      (teleStep inp s).1.hbProximaTrocaMs = s.hbProximaTrocaMs) ∧
    (∀ t s, (hbStep t s).proximaTrocaMs = s.proximaTrocaMs ∧
      (hbStep t s).potProximaImpressaoMs = s.potProximaImpressaoMs) ∧
    (∀ inp s, (relayStep inp s).1.hbProximaTrocaMs = s.hbProximaTrocaMs ∧
      (relayStep inp s).1.potProximaImpressaoMs = s.potProximaImpressaoMs) := by
  refine ⟨?_, ?_, ?_, ?_⟩
  · intro inp s h
    simp [teleStep, h]
  · intro inp s
    by_cases h : due inp.agora s.potProximaImpressaoMs <;> simp [teleStep, h]
  · intro t s
    by_cases h : due t s.hbProximaTrocaMs <;> simp [hbStep, h]
  · intro inp s
    by_cases h : due inp.agora s.proximaTrocaMs <;>
      simp [relayStep, agendaProximoIntervalo, h]

/-- Witness for C8 at a concrete fired telemetry input. -/
theorem teleStep_frame_witness :
    (due inpW.agora sW2.potProximaImpressaoMs = true ∧
      ((teleStep inpW sW2).1 =
        { sW2 with potProximaImpressaoMs := (inpW.agora + potPrintPeriodoMs) % U32 } ∧
       (teleStep inpW sW2).2 = some ⟨lerPotRaw inpW.potTele,
        (lerPotRaw inpW.potTele).toNat * 100 / POT_ADC_MAX,
        (faixaPorLeitura (lerPotRaw inpW.potTele)).1,
        (faixaPorLeitura (lerPotRaw inpW.potTele)).2⟩)) ∧
    ((relayStep inpW sW).1.hbProximaTrocaMs = sW.hbProximaTrocaMs ∧
      (relayStep inpW sW).1.potProximaImpressaoMs = sW.potProximaImpressaoMs) :=
  ⟨⟨by decide, teleStep_frame.1 inpW sW2 (by decide)⟩, teleStep_frame.2.2.2 inpW sW⟩
